import Mathlib

/-!
Shallow embedding of the `winrm_iap` Ansible connection plugin
(`plugins/connection/winrm_iap.py`) and of the vault-writing portion of the
`gcp_reset_windows_password` module (`plugins/modules/gcp_reset_windows_password.py`).

The plugin's interaction with the outside world (the spawned `gcloud` tunnel
subprocess, the wall clock, `select`, TCP probes, signals, and the wrapped
WinRM connection) is modelled by explicit environment records: each record
field is the observation the Python code would have made at the corresponding
call site.  The adapter's own mutable state (`self._iap_tunnel_proc`,
`self._iap_local_port`, option values, `_extras`, `os.environ`) is an explicit
`ConnState` threaded through every operation.  Raised Python exceptions are
modelled with `Except`, paired with the state at the moment the exception
propagates.
-/

namespace WinrmIap

/-- Python truthiness test (`if not x`) for an optional string option value:
`None` and the empty string are falsy. -/
def pyStrFalsy : Option String → Bool
  | none => true
  | some s => s.isEmpty

/-- Python `x or d` for an optional integer option value: `None` and `0` are
falsy and fall back to the default `d`. -/
def pyOrNat : Option Nat → Nat → Nat
  | none, d => d
  | some 0, d => d
  | some (k+1), _ => k+1

/-- The connection option values consulted by the plugin
(`get_option` / `set_option` store), plus the play-context remote address used
as the last fallback by `_get_iap_instance_name`. -/
structure IapOptions where
  gcp_instance_name : Option String
  gcp_project : Option String
  gcp_zone : Option String
  gcp_iap_service_account : Option String
  iap_tunnel_timeout : Option Nat
  remote_addr : Option String
  port : Option Nat
  play_context_remote_addr : String
deriving DecidableEq

/-- Adapter state: `self._iap_tunnel_proc` (pid of the tunnel subprocess, if a
handle is held), `self._iap_local_port`, `self._connected`, the wrapped
connection's cached `protocol` / `shell_id`, the
`ansible_winrm_server_cert_validation` entry of `_extras`, and the `NO_PROXY`
environment variable. -/
structure ConnState where
  opts : IapOptions
  iap_tunnel_proc : Option Nat
  iap_local_port : Option Nat
  connected : Bool
  protocolSet : Bool
  shellIdSet : Bool
  extras_cert_validation : Option String
  no_proxy_env : Option String
deriving DecidableEq

/-- Python exceptions raised by the embedded code. -/
inductive PyErr where
  | ansibleError (msg : String)
  | ansibleConnectionFailure (msg : String)
  | timeoutExpired
  | wrappedError
deriving DecidableEq

/-- Fallback chain of `_get_iap_instance_name`:
`get_option('remote_addr') or self._play_context.remote_addr`. -/
def iapInstanceFallback (o : IapOptions) : String :=
  match o.remote_addr with
  | some r => if r.isEmpty then o.play_context_remote_addr else r
  | none => o.play_context_remote_addr

/-- Embedding of `Connection._get_iap_instance_name` (lines 200-204). -/
def getIapInstanceName (o : IapOptions) : String :=
  match o.gcp_instance_name with
  | some n => if n.isEmpty then iapInstanceFallback o else n
  | none => iapInstanceFallback o

/-- Digits-to-number conversion for `int(m.group(1))`. -/
def natOfDigits (ds : List Char) : Nat :=
  ds.foldl (fun n c => 10 * n + (c.toNat - 48)) 0

/-- Splits a character list into its maximal leading run of decimal digits and
the remainder (the greedy `\d+` of the port pattern). -/
def takeDigits : List Char → List Char × List Char
  | [] => ([], [])
  | c :: cs =>
      if c.isDigit then
        let p := takeDigits cs
        (c :: p.1, p.2)
      else ([], c :: cs)

/-- Attempts to match, at the head of `cs`, the literal `pat` followed by a
nonempty digit run followed by a closing bracket, returning the captured
number.  `pat` is one of the two pattern alternatives including the space and
the opening bracket. -/
def matchPortAt (pat cs : List Char) : Option Nat :=
  if pat.isPrefixOf cs then
    let rest := cs.drop pat.length
    let p := takeDigits rest
    match p.2 with
    | ']' :: _ => if p.1.isEmpty then none else some (natOfDigits p.1)
    | _ => none
  else none

/-- Embedding of `re.search` of the port pattern
`(?:Listening on port|Picking local unused port) \[(\d+)\]` over the
characters of a line: scan positions left to right; at each position try the
two alternatives in order (line 249). -/
def searchPortChars : List Char → Option Nat
  | [] => none
  | c :: cs =>
      match matchPortAt "Listening on port [".data (c :: cs) with
      | some n => some n
      | none =>
          match matchPortAt "Picking local unused port [".data (c :: cs) with
          | some n => some n
          | none => searchPortChars cs

/-- Embedding of `port_re.search(line)` followed by `int(m.group(1))` (lines 249, 274-276). -/
def searchPort (line : String) : Option Nat :=
  searchPortChars line.data

/-- One iteration of the phase-1 (port discovery) loop, as observed by the
code: the wall-clock reading at the `while` test, the result of
`self._iap_tunnel_proc.poll()`, whether `select` reported the stderr stream
ready, and the line returned by `readline()` (the empty string models an empty
read). -/
structure P1Event where
  now : Nat
  poll : Option Int
  ready : Bool
  line : String
deriving DecidableEq

/-- Outcome of the phase-1 loop (lines 254-277): port matched (`break`),
deadline reached (`while` test failed), or subprocess exit detected. -/
inductive P1Out where
  | found (port : Nat) (collected : List String)
  | deadlineHit (collected : List String)
  | died (rc : Int) (collected : List String)
deriving DecidableEq

/-- The phase-1 loop of `_start_iap_tunnel` (lines 254-277); `remaining` is
what `stderr.read()` returns when subprocess exit is detected (line 256),
`collected` accumulates `collected_stderr`.  `none` means the supplied
observation trace is too short to determine the outcome. -/
def phase1 (deadline : Nat) (remaining : String) :
    List P1Event → List String → Option P1Out
  | [], _ => none
  | e :: es, collected =>
      if e.now < deadline then
        match e.poll with
        | some rc => some (.died rc (collected ++ [remaining]))
        | none =>
            if e.ready then
              if e.line = "" then phase1 deadline remaining es collected
              else
                match searchPort e.line with
                | some n => some (.found n (collected ++ [e.line]))
                | none => phase1 deadline remaining es (collected ++ [e.line])
            else phase1 deadline remaining es collected
      else some (.deadlineHit collected)

/-- One iteration of the phase-2 (readiness polling) loop: wall-clock reading,
`poll()` result, and whether `socket.create_connection` succeeded. -/
structure P2Event where
  now : Nat
  poll : Option Int
  connectOk : Bool
deriving DecidableEq

/-- Outcome of the phase-2 loop (lines 287-303). -/
inductive P2Out where
  | ready
  | died (rc : Int)
  | deadlineHit
deriving DecidableEq

/-- The phase-2 loop of `_start_iap_tunnel` (lines 287-303): on each
iteration, check the deadline, check `poll()`, then attempt a TCP connection
(an `OSError` leads to `sleep(0.5)` and retry). -/
def phase2 (deadline : Nat) : List P2Event → Option P2Out
  | [] => none
  | e :: es =>
      if e.now < deadline then
        match e.poll with
        | some rc => some (.died rc)
        | none => if e.connectOk then some .ready else phase2 deadline es
      else some .deadlineHit

/-- Environment for `_stop_iap_tunnel`: whether `os.killpg` raised `OSError`
at each of its two call sites (caught and ignored either way, lines 316-319
and 323-326), whether the process exited within the first `wait(timeout=5)`
grace period (line 321), and whether it exited within the second
`wait(timeout=5)` after `SIGKILL` (line 327). -/
structure StopEnv where
  termSignalRaises : Bool
  graceExit : Bool
  killSignalRaises : Bool
  killExit : Bool
deriving DecidableEq

/-- Embedding of `Connection._stop_iap_tunnel` (lines 312-329).  `SIGTERM` is sent to the
process group (failures swallowed); if the first wait times out, `SIGKILL` is
sent (failures swallowed) and a second wait runs; this second wait is *not*
wrapped in a `try`, so its `TimeoutExpired` propagates and the handle is not
cleared.  On normal completion both `_iap_tunnel_proc` and `_iap_local_port`
are cleared. -/
def stopIapTunnel (env : StopEnv) (s : ConnState) : Except PyErr Unit × ConnState :=
  match s.iap_tunnel_proc with
  | none => (.ok (), s)
  | some _ =>
      -- os.killpg(..., SIGTERM) inside try/except OSError: outcome ignored
      if env.graceExit then
        (.ok (), { s with iap_tunnel_proc := none, iap_local_port := none })
      else
        -- first wait raised TimeoutExpired (caught);
        -- os.killpg(..., SIGKILL) inside try/except OSError: outcome ignored
        if env.killExit then
          (.ok (), { s with iap_tunnel_proc := none, iap_local_port := none })
        else
          (.error .timeoutExpired, s)

/-- Environment for one `_start_iap_tunnel` call: `poll()` result at the
fast-path check (line 208), `time.time()` at line 251, the pid assigned by
`Popen`, the phase-1 observation trace, the `stderr.read()` tail, the phase-2
observation trace, and the termination environment for any `_stop_iap_tunnel`
call made on a timeout path. -/
structure StartEnv where
  entryPoll : Option Int
  startTime : Nat
  newPid : Nat
  p1 : List P1Event
  remainingStderr : String
  p2 : List P2Event
  stopEnv : StopEnv
deriving DecidableEq

/-- The `gcloud` command line built at lines 222-232. -/
def buildCmd (instanceName : String) (remotePort : Nat) (zone project : String)
    (sa : Option String) : List String :=
  ["gcloud", "compute", "start-iap-tunnel", instanceName, toString remotePort,
    "--local-host-port=localhost:0", "--zone", zone, "--project", project] ++
  (match sa with
   | some a => if a.isEmpty then [] else ["--impersonate-service-account", a]
   | none => [])

/-- Result of a `_start_iap_tunnel` call: the returned port or raised
exception, the adapter state when control leaves the method, and the command
line of the subprocess spawned by this call (`none` when no `Popen` ran). -/
structure StartRes where
  out : Except PyErr (Option Nat)
  st : ConnState
  spawnedCmd : Option (List String)

/-- Message of line 259: `"IAP tunnel process exited unexpectedly (rc=%d): %s"`. -/
def exitedMsg (rc : Int) (collected : List String) : String :=
  "IAP tunnel process exited unexpectedly (rc=" ++ toString rc ++ "): " ++
    String.join collected

/-- Message of line 282: `"Timed out waiting for IAP tunnel port after %ds. Stderr: %s"`. -/
def timeoutMsgPort (timeout : Nat) (collected : List String) : String :=
  "Timed out waiting for IAP tunnel port after " ++ toString timeout ++
    "s. Stderr: " ++ String.join collected

/-- Message of line 290: `"IAP tunnel died while waiting for port to become ready (rc=%d)"`. -/
def diedMsg (rc : Int) : String :=
  "IAP tunnel died while waiting for port to become ready (rc=" ++ toString rc ++ ")"

/-- Message of line 308: `"Timed out waiting for IAP tunnel after %ds. Stderr: %s"`. -/
def timeoutMsgTunnel (timeout : Nat) (collected : List String) : String :=
  "Timed out waiting for IAP tunnel after " ++ toString timeout ++
    "s. Stderr: " ++ String.join collected

/-- Lines 286-310 of `_start_iap_tunnel`: the phase-2 loop, followed on
deadline expiry by `_stop_iap_tunnel()` and the connection-failure raise.  On
success the method returns `self._iap_local_port` (line 301); when the
subprocess died mid-probe it raises *without* stopping the tunnel (lines
288-292). -/
def runPhase2 (cmd : List String) (timeout deadline : Nat) (collected : List String)
    (env : StartEnv) (s : ConnState) : Option StartRes :=
  match phase2 deadline env.p2 with
  | none => none
  | some .ready => some ⟨.ok s.iap_local_port, s, some cmd⟩
  | some (.died rc) =>
      some ⟨.error (.ansibleConnectionFailure (diedMsg rc)), s, some cmd⟩
  | some .deadlineHit =>
      match stopIapTunnel env.stopEnv s with
      | (.ok _, s1) =>
          some ⟨.error (.ansibleConnectionFailure (timeoutMsgTunnel timeout collected)),
                s1, some cmd⟩
      | (.error e, s1) => some ⟨.error e, s1, some cmd⟩

/-- Lines 253-310 of `_start_iap_tunnel`, entered right after `Popen`: run the
phase-1 loop; on subprocess exit raise without teardown (lines 255-261); if
the loop ended with `self._iap_local_port` still `None`, stop the tunnel and
raise the port-discovery timeout (lines 279-284); otherwise proceed to
phase 2.  Note that when the loop ends by deadline but a *stale*
`_iap_local_port` is present from an earlier attempt, the `None` check at
line 279 passes and phase 2 runs against the stale port. -/
def afterPhase1 (cmd : List String) (timeout deadline : Nat) (env : StartEnv)
    (s : ConnState) : Option StartRes :=
  match phase1 deadline env.remainingStderr env.p1 [] with
  | none => none
  | some (.died rc collected) =>
      some ⟨.error (.ansibleConnectionFailure (exitedMsg rc collected)), s, some cmd⟩
  | some (.found n collected) =>
      runPhase2 cmd timeout deadline collected env { s with iap_local_port := some n }
  | some (.deadlineHit collected) =>
      match s.iap_local_port with
      | none =>
          match stopIapTunnel env.stopEnv s with
          | (.ok _, s1) =>
              some ⟨.error (.ansibleConnectionFailure (timeoutMsgPort timeout collected)),
                    s1, some cmd⟩
          | (.error e, s1) => some ⟨.error e, s1, some cmd⟩
      | some _ => runPhase2 cmd timeout deadline collected env s

/-- Embedding of `Connection._start_iap_tunnel` (lines 206-310).  Fast path: if a handle is
present and a non-blocking `poll()` reports the process alive, return the
stored `self._iap_local_port` without spawning anything (lines 208-209).
Otherwise read the options, validate project and zone (raising before any
`Popen` on failure, lines 217-220), build the command, spawn the subprocess
(line 239, overwriting the handle), and run the two discovery phases. -/
def startIapTunnel (env : StartEnv) (s : ConnState) : Option StartRes :=
  if s.iap_tunnel_proc.isSome ∧ env.entryPoll = none then
    some ⟨.ok s.iap_local_port, s, none⟩
  else
    let instanceName := getIapInstanceName s.opts
    let remotePort := pyOrNat s.opts.port 5986
    let timeout := pyOrNat s.opts.iap_tunnel_timeout 30
    if pyStrFalsy s.opts.gcp_project then
      some ⟨.error (.ansibleError "gcp_project is required for winrm_iap connection"),
            s, none⟩
    else if pyStrFalsy s.opts.gcp_zone then
      some ⟨.error (.ansibleError "gcp_zone is required for winrm_iap connection"),
            s, none⟩
    else
      let cmd := buildCmd instanceName remotePort (s.opts.gcp_zone.getD "")
        (s.opts.gcp_project.getD "") s.opts.gcp_iap_service_account
      afterPhase1 cmd timeout (env.startTime + timeout) env
        { s with iap_tunnel_proc := some env.newPid }

/-- Environment for `_connect`: the tunnel-start environment plus whether the
wrapped `super()._connect()` raises. -/
structure ConnectEnv where
  startEnv : StartEnv
  superConnectRaises : Bool
deriving DecidableEq

/-- Effect of `os.environ.setdefault('NO_PROXY', 'localhost')` (line 339). -/
def noProxySetState (s : ConnState) : ConnState :=
  { s with no_proxy_env := some (s.no_proxy_env.getD "localhost") }

/-- Embedding of `Connection._connect` (lines 331-354): no-op when already connected;
otherwise `os.environ.setdefault('NO_PROXY', 'localhost')`, start the tunnel,
override the `remote_addr` and `port` options to point at the tunnel,
`extras.setdefault('ansible_winrm_server_cert_validation', 'ignore')`, then
delegate to the wrapped connection's connect. -/
def connect (env : ConnectEnv) (s : ConnState) :
    Option (Except PyErr Unit × ConnState) :=
  if s.connected then some (.ok (), s)
  else
    match startIapTunnel env.startEnv (noProxySetState s) with
    | none => none
    | some r =>
        match r.out with
        | .error e => some (.error e, r.st)
        | .ok localPort =>
            let s1 := { r.st with
              opts := { r.st.opts with remote_addr := some "localhost", port := localPort } }
            let s2 := { s1 with
              extras_cert_validation := some (s1.extras_cert_validation.getD "ignore") }
            if env.superConnectRaises then some (.error .wrappedError, s2)
            else some (.ok (), { s2 with connected := true, protocolSet := true })

/-- The state from which `reset` (lines 356-363) calls `_connect` again:
after `_stop_iap_tunnel`, `self.protocol`, `self.shell_id` and
`self._connected` are cleared. -/
def resetStateAfterStop (senv : StopEnv) (s : ConnState) : ConnState :=
  { (stopIapTunnel senv s).2 with
      protocolSet := false, shellIdSet := false, connected := false }

/-- Embedding of `Connection.reset` (lines 356-363): stop the tunnel (an exception from the
stop propagates), clear cached session state, then reconnect. -/
def reset (senv : StopEnv) (cenv : ConnectEnv) (s : ConnState) :
    Option (Except PyErr Unit × ConnState) :=
  match stopIapTunnel senv s with
  | (.error e, s1) => some (.error e, s1)
  | (.ok _, _) => connect cenv (resetStateAfterStop senv s)

/-- Environment for `close`: whether the wrapped `super().close()` raises,
and the termination environment for `_stop_iap_tunnel`. -/
structure CloseEnv where
  superCloseRaises : Bool
  stopEnv : StopEnv
deriving DecidableEq

/-- Embedding of `Connection.close` (lines 365-367): `super().close()` then
`self._stop_iap_tunnel()`.  There is no `try`/`finally`: if the wrapped close
raises, `_stop_iap_tunnel` is never reached. -/
def close (env : CloseEnv) (s : ConnState) : Except PyErr Unit × ConnState :=
  if env.superCloseRaises then (.error .wrappedError, s)
  else
    let s1 := { s with connected := false, protocolSet := false, shellIdSet := false }
    stopIapTunnel env.stopEnv s1

/-! ## The password-reset module (`gcp_reset_windows_password.py`) -/

/-- File contents in the modelled filesystem: plaintext or vault-encrypted. -/
inductive FileData where
  | plain (content : String)
  | vaulted (content : String)
deriving DecidableEq

/-- Filesystem model: an association list from path to contents; a later
write shadows earlier entries for the same path. -/
abbrev FS := List (String × FileData)

/-- Read the (most recent) contents of a path. -/
def fsRead : FS → String → Option FileData
  | [], _ => none
  | (q, d) :: fs, p => if q = p then some d else fsRead fs p

/-- Create or truncate a file (`open` for writing). -/
def fsWrite (fs : FS) (p : String) (d : FileData) : FS :=
  (p, d) :: fs

/-- Effect of `os.unlink`. -/
def fsErase (fs : FS) (p : String) : FS :=
  fs.filter (fun e => e.1 != p)

/-- Effect of `os.rename src dst`. -/
def fsRename (fs : FS) (src dst : String) : FS :=
  match fsRead fs src with
  | some d => fsWrite (fsErase fs src) dst d
  | none => fs

/-- Module parameters (argument spec of `run_module`, lines 90-98). -/
structure ModuleParams where
  instance_name : String
  project : String
  zone : String
  user : String
  vault_encrypt : Bool
  vault_password_file : Option String
  host_vars_dir : String
deriving DecidableEq

/-- Environment for one `run_module` call: the `gcloud` command's exit
code/stderr, the parsed JSON object (`none` on a `JSONDecodeError`, otherwise
the key-value pairs), the basename generated by `NamedTemporaryFile`, and the
`ansible-vault encrypt` outcome. -/
structure RunEnv where
  gcloudRc : Int
  gcloudStderr : String
  jsonResult : Option (List (String × String))
  tmpName : String
  encryptOk : Bool
  encryptStderr : String
deriving DecidableEq

/-- Module termination: `exit_json` (carrying the `vault_file` result key if
set) or `fail_json` with its message. -/
inductive ModuleOutcome where
  | exited (vault_file : Option String)
  | failed (msg : String)
deriving DecidableEq

/-- Python `dict.get(k, d)` on the parsed JSON object. -/
def jsonGet (js : List (String × String)) (k d : String) : String :=
  match js with
  | [] => d
  | (q, v) :: rest => if q = k then v else jsonGet rest k d

/-- The YAML written at line 157. -/
def vaultYamlContent (username password : String) : String :=
  "ansible_user: " ++ username ++ "\nansible_password: " ++ password ++ "\n"

/-- Path `os.path.join(host_vars_dir, instance)` (line 153). -/
def hostDirOf (p : ModuleParams) : String :=
  p.host_vars_dir ++ "/" ++ p.instance_name

/-- Path `os.path.join(host_dir, 'vault.yml')` (line 155). -/
def vaultFileOf (p : ModuleParams) : String :=
  hostDirOf p ++ "/vault.yml"

/-- Full path of the `NamedTemporaryFile` created in `host_dir` (line 160). -/
def tmpPathOf (p : ModuleParams) (env : RunEnv) : String :=
  hostDirOf p ++ "/" ++ env.tmpName

/-- Embedding of `run_module` (lines 89-177), with the `gcloud` invocation, JSON parsing
and `ansible-vault` invocation abstracted into `RunEnv` observations.  The
vault-writing block (lines 152-175) is embedded literally: write the
plaintext to a fresh temp file, run `ansible-vault encrypt` in place (on
failure, unlink the temp file and fail), then `os.rename` the encrypted temp
file onto `host_vars/<instance>/vault.yml`. -/
def run_module (p : ModuleParams) (env : RunEnv) (fs : FS) : ModuleOutcome × FS :=
  if p.vault_encrypt ∧ pyStrFalsy p.vault_password_file then
    (.failed "vault_password_file is required when vault_encrypt is true", fs)
  else if env.gcloudRc ≠ 0 then
    (.failed ("gcloud reset-windows-password failed (rc=" ++ toString env.gcloudRc ++
      "): " ++ env.gcloudStderr), fs)
  else
    match env.jsonResult with
    | none => (.failed "Failed to parse gcloud output", fs)
    | some js =>
        let username := jsonGet js "username" p.user
        let password := jsonGet js "password" ""
        if p.vault_encrypt then
          let yaml := vaultYamlContent username password
          let tmp := tmpPathOf p env
          let fs1 := fsWrite fs tmp (.plain yaml)
          if env.encryptOk then
            let fs2 := fsWrite fs1 tmp (.vaulted yaml)
            let fs3 := fsRename fs2 tmp (vaultFileOf p)
            (.exited (some (vaultFileOf p)), fs3)
          else
            let fs2 := fsErase fs1 tmp
            (.failed ("ansible-vault encrypt failed: " ++ env.encryptStderr), fs2)
        else (.exited none, fs)

/-- Predicate stating that `s` contains `pat` as a substring. -/
def strContains (s pat : String) : Prop :=
  ∃ a b, s = a ++ pat ++ b

/-- Phase-1 events: a stream of lines arriving promptly (clock reading 0,
process alive, stream ready), one per loop iteration. -/
def mkP1Events (lines : List String) : List P1Event :=
  lines.map (fun l => ⟨0, none, true, l⟩)

/-- The state produced inside `_connect` after the `remote_addr`/`port`
option overrides and the `extras.setdefault` for certificate validation,
from the tunnel-start result `r` and the returned local port `p`
(lines 344-351). -/
def certSetStateOf (r : StartRes) (p : Option Nat) : ConnState :=
  { r.st with
      opts := { r.st.opts with remote_addr := some "localhost", port := p },
      extras_cert_validation := some (r.st.extras_cert_validation.getD "ignore") }

/-- The state after a fully successful `_connect` (line 354: the wrapped
connect succeeded and marked the connection up). -/
def connectedStateOf (r : StartRes) (p : Option Nat) : ConnState :=
  { certSetStateOf r p with connected := true, protocolSet := true }

/-! ## Concrete instances used in counterexamples and witnesses -/

/-- A fully populated option set. -/
def optsA : IapOptions :=
  ⟨some "vm1", some "proj-a", some "zone-a", none, some 30, some "vm1", some 5986, "vm1"⟩

/-- A freshly constructed adapter: no tunnel handle, no port, disconnected. -/
def stFresh : ConnState := ⟨optsA, none, none, false, false, false, none, none⟩

/-- Termination environment of a process that exits within the grace period. -/
def benignStop : StopEnv := ⟨false, true, false, true⟩

/-- Termination environment of a process that survives both `SIGTERM` and
`SIGKILL` beyond the wait timeouts. -/
def stuckStop : StopEnv := ⟨false, false, false, false⟩

/-- The command line `_start_iap_tunnel` builds for `optsA`. -/
def cmdA : List String := buildCmd "vm1" 5986 "zone-a" "proj-a" none

/-- A run in which the tunnel reports port 4444 promptly and becomes ready. -/
def envHappy : StartEnv :=
  ⟨none, 0, 7, [⟨0, none, true, "Listening on port [4444]"⟩], "", [⟨1, none, true⟩],
    benignStop⟩

/-- A run in which the tunnel reports port 4444 and then exits (rc = 1)
while the readiness probe is still polling. -/
def envMidDeath : StartEnv :=
  ⟨none, 0, 7, [⟨0, none, true, "Listening on port [4444]"⟩], "", [⟨1, some 1, false⟩],
    benignStop⟩

/-- Adapter state holding a handle to process 7 with discovered port 4444. -/
def stLive : ConnState :=
  { stFresh with iap_tunnel_proc := some 7, iap_local_port := some 4444 }

/-- An environment whose fast-path poll reports the process alive. -/
def envAlive : StartEnv := ⟨none, 0, 9, [], "", [], benignStop⟩

/-- A run hitting the port-discovery deadline: one non-matching line, then a
clock reading at the deadline. -/
def envDiscTimeoutW : StartEnv :=
  ⟨none, 0, 7, mkP1Events ["junk"] ++ [⟨30, none, false, ""⟩], "", [], benignStop⟩

/-- A run that discovers port 4444 but hits the readiness deadline. -/
def envReadyTimeoutW : StartEnv :=
  ⟨none, 0, 7, [⟨0, none, true, "Listening on port [4444]"⟩], "", [⟨30, none, false⟩],
    benignStop⟩

/-- A run in which the subprocess exits (rc = 1) after one non-matching
line, before reporting any port. -/
def envLaunchFailW : StartEnv :=
  ⟨none, 0, 7, mkP1Events ["w1"] ++ [⟨0, some 1, false, ""⟩], "tail", [], benignStop⟩


/-- Options lacking a project. -/
def optsNoProj : IapOptions := { optsA with gcp_project := none }

/-- Fresh adapter with no project configured. -/
def stNoProj : ConnState := { stFresh with opts := optsNoProj }

/-- Fresh adapter whose `_extras` explicitly enable certificate validation. -/
def stCfgValidate : ConnState :=
  { stFresh with extras_cert_validation := some "validate" }

/-- Connect environment: happy tunnel, wrapped connect succeeds. -/
def cenvHappy : ConnectEnv := ⟨envHappy, false⟩

/-- Close environment in which the wrapped close raises. -/
def closeEnvRaise : CloseEnv := ⟨true, benignStop⟩

/-- Close environment in which the wrapped close succeeds. -/
def closeEnvOk : CloseEnv := ⟨false, benignStop⟩

/-- The result of a happy tunnel start from `stFresh`. -/
def resHappy : StartRes := ⟨.ok (some 4444), stLive, some cmdA⟩

/-- Final adapter state after a successful `_connect` on `stCfgValidate`:
the pre-existing `validate` setting survives the `setdefault`. -/
def stC9Final : ConnState :=
  { opts := { optsA with remote_addr := some "localhost", port := some 4444 },
    iap_tunnel_proc := some 7, iap_local_port := some 4444,
    connected := true, protocolSet := true, shellIdSet := false,
    extras_cert_validation := some "validate", no_proxy_env := some "localhost" }

/-- Module parameters with vault encryption on. -/
def wpP : ModuleParams :=
  ⟨"vm1", "proj-a", "zone-a", "admin", true, some ".vault_pass", "host_vars"⟩

/-- Module environment: gcloud succeeds, encryption succeeds. -/
def wpEnvOk : RunEnv :=
  ⟨0, "", some [("username", "admin"), ("password", "pw1"), ("ip_address", "10.0.0.2")],
    "tmpabc.yml", true, ""⟩

/-- Module environment: gcloud succeeds, encryption fails. -/
def wpEnvFail : RunEnv := { wpEnvOk with encryptOk := false, encryptStderr := "boom" }

/-! ## Helper lemmas -/

theorem pyOrNat_pos (o : Option Nat) (d : Nat) (hd : 0 < d) : 0 < pyOrNat o d := by
  match o with
  | none => exact hd
  | some 0 => exact hd
  | some (k+1) => exact Nat.succ_pos k

theorem phase1_nil (d : Nat) (rem : String) (acc : List String) :
    phase1 d rem [] acc = none := rfl

/-- Unfolding of one phase-1 loop iteration. -/
theorem phase1_cons (d : Nat) (rem : String) (e : P1Event) (es : List P1Event)
    (acc : List String) :
    phase1 d rem (e :: es) acc =
      if e.now < d then
        match e.poll with
        | some rc => some (.died rc (acc ++ [rem]))
        | none =>
            if e.ready then
              if e.line = "" then phase1 d rem es acc
              else
                match searchPort e.line with
                | some n => some (.found n (acc ++ [e.line]))
                | none => phase1 d rem es (acc ++ [e.line])
            else phase1 d rem es acc
      else some (.deadlineHit acc) := rfl

theorem phase2_nil (d : Nat) : phase2 d [] = none := rfl

/-- Unfolding of one phase-2 loop iteration. -/
theorem phase2_cons (d : Nat) (e : P2Event) (es : List P2Event) :
    phase2 d (e :: es) =
      if e.now < d then
        match e.poll with
        | some rc => some (.died rc)
        | none => if e.connectOk then some .ready else phase2 d es
      else some .deadlineHit := rfl

/-- Non-matching, non-empty lines fed to the phase-1 loop are collected and
skipped; the loop continues on the remaining events. -/
theorem phase1_skip_nonmatching (d : Nat) (rem : String) (pre : List String)
    (es : List P1Event) (acc : List String) (hd : 0 < d)
    (h : ∀ l ∈ pre, searchPort l = none ∧ l ≠ "") :
    phase1 d rem (mkP1Events pre ++ es) acc = phase1 d rem es (acc ++ pre) := by
  induction pre generalizing acc with
  | nil => simp [mkP1Events]
  | cons x xs ih =>
      obtain ⟨hx, hne⟩ := h x (by simp)
      have hrest : ∀ l ∈ xs, searchPort l = none ∧ l ≠ "" := fun l hl => h l (by simp [hl])
      have ihx := ih (acc ++ [x]) hrest
      simp only [mkP1Events, List.map_cons, List.cons_append] at ihx ⊢
      rw [phase1_cons]
      simp only [if_pos hd]
      rw [if_neg hne, hx]
      rw [ihx]
      simp

/-- If the phase-1 loop ends because the deadline passed, some observed clock
reading was at or past the deadline. -/
theorem phase1_deadlineHit_mem (d : Nat) (rem : String) (es : List P1Event)
    (acc col : List String) (h : phase1 d rem es acc = some (.deadlineHit col)) :
    ∃ e ∈ es, ¬ e.now < d := by
  induction es generalizing acc with
  | nil => rw [phase1_nil] at h; exact absurd h (by simp)
  | cons e es ih =>
      by_cases hn : e.now < d
      · rw [phase1_cons, if_pos hn] at h
        match hp : e.poll with
        | some rc => rw [hp] at h; simp at h
        | none =>
            rw [hp] at h
            by_cases hr : e.ready = true
            · rw [if_pos hr] at h
              by_cases hl : e.line = ""
              · rw [if_pos hl] at h
                obtain ⟨e1, he1, hlt⟩ := ih _ h
                exact ⟨e1, by simp [he1], hlt⟩
              · rw [if_neg hl] at h
                match hs : searchPort e.line with
                | some n => rw [hs] at h; simp at h
                | none =>
                    rw [hs] at h
                    obtain ⟨e1, he1, hlt⟩ := ih _ h
                    exact ⟨e1, by simp [he1], hlt⟩
            · rw [if_neg hr] at h
              obtain ⟨e1, he1, hlt⟩ := ih _ h
              exact ⟨e1, by simp [he1], hlt⟩
      · exact ⟨e, by simp, hn⟩

/-- If the phase-1 loop found a port, some observed line matched the port
pattern with that number. -/
theorem phase1_found_mem (d : Nat) (rem : String) (es : List P1Event)
    (acc col : List String) (n : Nat)
    (h : phase1 d rem es acc = some (.found n col)) :
    ∃ e ∈ es, e.ready = true ∧ searchPort e.line = some n := by
  induction es generalizing acc with
  | nil => rw [phase1_nil] at h; exact absurd h (by simp)
  | cons e es ih =>
      by_cases hn : e.now < d
      · rw [phase1_cons, if_pos hn] at h
        match hp : e.poll with
        | some rc => rw [hp] at h; simp at h
        | none =>
            rw [hp] at h
            by_cases hr : e.ready = true
            · rw [if_pos hr] at h
              by_cases hl : e.line = ""
              · rw [if_pos hl] at h
                obtain ⟨e1, he1, hq⟩ := ih _ h
                exact ⟨e1, by simp [he1], hq⟩
              · rw [if_neg hl] at h
                match hs : searchPort e.line with
                | some m =>
                    rw [hs] at h
                    simp only [Option.some.injEq, P1Out.found.injEq] at h
                    exact ⟨e, by simp, hr, by rw [hs, h.1]⟩
                | none =>
                    rw [hs] at h
                    obtain ⟨e1, he1, hq⟩ := ih _ h
                    exact ⟨e1, by simp [he1], hq⟩
            · rw [if_neg hr] at h
              obtain ⟨e1, he1, hq⟩ := ih _ h
              exact ⟨e1, by simp [he1], hq⟩
      · rw [phase1_cons, if_neg hn] at h
        simp at h


theorem stopIapTunnel_noProc (env : StopEnv) (s : ConnState)
    (h : s.iap_tunnel_proc = none) : stopIapTunnel env s = (.ok (), s) := by
  unfold stopIapTunnel; rw [h]

theorem stopIapTunnel_clears (env : StopEnv) (s : ConnState) (pid : Nat)
    (h : s.iap_tunnel_proc = some pid)
    (hex : env.graceExit = true ∨ env.killExit = true) :
    stopIapTunnel env s =
      (.ok (), { s with iap_tunnel_proc := none, iap_local_port := none }) := by
  unfold stopIapTunnel; rw [h]
  by_cases hg : env.graceExit = true
  · rw [if_pos hg]
  · rcases hex with hex | hex
    · exact absurd hex hg
    · rw [if_neg hg, if_pos hex]

theorem stopIapTunnel_stuck (env : StopEnv) (s : ConnState) (pid : Nat)
    (h : s.iap_tunnel_proc = some pid)
    (hg : env.graceExit = false) (hk : env.killExit = false) :
    stopIapTunnel env s = (.error .timeoutExpired, s) := by
  unfold stopIapTunnel
  rw [h, if_neg (by simp [hg]), if_neg (by simp [hk])]

theorem startIapTunnel_fast (env : StartEnv) (s : ConnState)
    (h1 : s.iap_tunnel_proc.isSome = true) (h2 : env.entryPoll = none) :
    startIapTunnel env s = some ⟨.ok s.iap_local_port, s, none⟩ := by
  unfold startIapTunnel
  rw [if_pos ⟨h1, h2⟩]

theorem startIapTunnel_no_project (env : StartEnv) (s : ConnState)
    (hns : ¬(s.iap_tunnel_proc.isSome = true ∧ env.entryPoll = none))
    (hproj : pyStrFalsy s.opts.gcp_project = true) :
    startIapTunnel env s =
      some ⟨.error (.ansibleError "gcp_project is required for winrm_iap connection"),
            s, none⟩ := by
  unfold startIapTunnel
  rw [if_neg hns, if_pos hproj]

theorem startIapTunnel_no_zone (env : StartEnv) (s : ConnState)
    (hns : ¬(s.iap_tunnel_proc.isSome = true ∧ env.entryPoll = none))
    (hproj : pyStrFalsy s.opts.gcp_project = false)
    (hzone : pyStrFalsy s.opts.gcp_zone = true) :
    startIapTunnel env s =
      some ⟨.error (.ansibleError "gcp_zone is required for winrm_iap connection"),
            s, none⟩ := by
  unfold startIapTunnel
  rw [if_neg hns, if_neg (by simp [hproj]), if_pos hzone]

theorem startIapTunnel_spawn (env : StartEnv) (s : ConnState)
    (hns : ¬(s.iap_tunnel_proc.isSome = true ∧ env.entryPoll = none))
    (hproj : pyStrFalsy s.opts.gcp_project = false)
    (hzone : pyStrFalsy s.opts.gcp_zone = false) :
    startIapTunnel env s =
      afterPhase1
        (buildCmd (getIapInstanceName s.opts) (pyOrNat s.opts.port 5986)
          (s.opts.gcp_zone.getD "") (s.opts.gcp_project.getD "")
          s.opts.gcp_iap_service_account)
        (pyOrNat s.opts.iap_tunnel_timeout 30)
        (env.startTime + pyOrNat s.opts.iap_tunnel_timeout 30) env
        { s with iap_tunnel_proc := some env.newPid } := by
  unfold startIapTunnel
  rw [if_neg hns, if_neg (by simp [hproj]), if_neg (by simp [hzone])]

theorem afterPhase1_died (cmd : List String) (t d : Nat) (env : StartEnv)
    (s : ConnState) (rc : Int) (col : List String)
    (h : phase1 d env.remainingStderr env.p1 [] = some (.died rc col)) :
    afterPhase1 cmd t d env s =
      some ⟨.error (.ansibleConnectionFailure (exitedMsg rc col)), s, some cmd⟩ := by
  unfold afterPhase1; rw [h]

theorem afterPhase1_found (cmd : List String) (t d : Nat) (env : StartEnv)
    (s : ConnState) (n : Nat) (col : List String)
    (h : phase1 d env.remainingStderr env.p1 [] = some (.found n col)) :
    afterPhase1 cmd t d env s =
      runPhase2 cmd t d col env { s with iap_local_port := some n } := by
  unfold afterPhase1; rw [h]

theorem afterPhase1_deadline_noPort (cmd : List String) (t d : Nat) (env : StartEnv)
    (s : ConnState) (col : List String)
    (h : phase1 d env.remainingStderr env.p1 [] = some (.deadlineHit col))
    (hp : s.iap_local_port = none) :
    afterPhase1 cmd t d env s =
      (match stopIapTunnel env.stopEnv s with
       | (.ok _, s1) =>
           some ⟨.error (.ansibleConnectionFailure (timeoutMsgPort t col)), s1, some cmd⟩
       | (.error e, s1) => some ⟨.error e, s1, some cmd⟩) := by
  unfold afterPhase1; rw [h, hp]

theorem afterPhase1_deadline_stale (cmd : List String) (t d : Nat) (env : StartEnv)
    (s : ConnState) (col : List String) (p : Nat)
    (h : phase1 d env.remainingStderr env.p1 [] = some (.deadlineHit col))
    (hp : s.iap_local_port = some p) :
    afterPhase1 cmd t d env s = runPhase2 cmd t d col env s := by
  unfold afterPhase1; rw [h, hp]

theorem runPhase2_ready (cmd : List String) (t d : Nat) (col : List String)
    (env : StartEnv) (s : ConnState) (h : phase2 d env.p2 = some .ready) :
    runPhase2 cmd t d col env s = some ⟨.ok s.iap_local_port, s, some cmd⟩ := by
  unfold runPhase2; rw [h]

theorem runPhase2_died (cmd : List String) (t d : Nat) (col : List String)
    (env : StartEnv) (s : ConnState) (rc : Int)
    (h : phase2 d env.p2 = some (.died rc)) :
    runPhase2 cmd t d col env s =
      some ⟨.error (.ansibleConnectionFailure (diedMsg rc)), s, some cmd⟩ := by
  unfold runPhase2; rw [h]

theorem runPhase2_deadline (cmd : List String) (t d : Nat) (col : List String)
    (env : StartEnv) (s : ConnState) (h : phase2 d env.p2 = some .deadlineHit) :
    runPhase2 cmd t d col env s =
      (match stopIapTunnel env.stopEnv s with
       | (.ok _, s1) =>
           some ⟨.error (.ansibleConnectionFailure (timeoutMsgTunnel t col)), s1, some cmd⟩
       | (.error e, s1) => some ⟨.error e, s1, some cmd⟩) := by
  unfold runPhase2; rw [h]

theorem afterPhase1_undet (cmd : List String) (t d : Nat) (env : StartEnv)
    (s : ConnState) (h : phase1 d env.remainingStderr env.p1 [] = none) :
    afterPhase1 cmd t d env s = none := by
  unfold afterPhase1; rw [h]

theorem runPhase2_undet (cmd : List String) (t d : Nat) (col : List String)
    (env : StartEnv) (s : ConnState) (h : phase2 d env.p2 = none) :
    runPhase2 cmd t d col env s = none := by
  unfold runPhase2; rw [h]

/-- If every phase-2 clock reading is at or past the deadline, the phase-2
loop cannot report readiness. -/
theorem phase2_all_late (d : Nat) (es : List P2Event)
    (h : ∀ e ∈ es, ¬ e.now < d) :
    phase2 d es = none ∨ phase2 d es = some .deadlineHit := by
  cases es with
  | nil => exact Or.inl rfl
  | cons e es => exact Or.inr (by rw [phase2_cons, if_neg (h e (by simp))])

/-- The function `_stop_iap_tunnel` preserves everything but the tunnel handle and port,
and the only exception it can raise is `TimeoutExpired`. -/
theorem stopIapTunnel_shape (env : StopEnv) (s : ConnState) :
    (stopIapTunnel env s).2.extras_cert_validation = s.extras_cert_validation
    ∧ ∀ e, (stopIapTunnel env s).1 = .error e → e = .timeoutExpired := by
  unfold stopIapTunnel
  split
  · exact ⟨rfl, by simp⟩
  · split
    · exact ⟨rfl, by simp⟩
    · split
      · exact ⟨rfl, by simp⟩
      · exact ⟨rfl, fun e he => by injection he with h2; exact h2.symm⟩

/-- Structural facts about every determined `runPhase2` outcome. -/
theorem runPhase2_shape (cmd : List String) (t d : Nat) (col : List String)
    (env : StartEnv) (s : ConnState) (r : StartRes)
    (h : runPhase2 cmd t d col env s = some r) :
    r.spawnedCmd = some cmd
    ∧ r.st.extras_cert_validation = s.extras_cert_validation
    ∧ (∀ q, r.out = .ok q → r.st.iap_local_port = q ∧ r.st.iap_tunnel_proc = s.iap_tunnel_proc)
    ∧ (∀ e, r.out = .error e → e ≠ .wrappedError) := by
  cases h2 : phase2 d env.p2 with
  | none => rw [runPhase2_undet cmd t d col env s h2] at h; cases h
  | some out =>
      cases out with
      | ready =>
          rw [runPhase2_ready cmd t d col env s h2] at h
          obtain rfl := Option.some_inj.mp h
          refine ⟨rfl, rfl, ?_, by simp⟩
          intro q hq
          injection hq with hq
          exact ⟨hq, rfl⟩
      | died rc =>
          rw [runPhase2_died cmd t d col env s rc h2] at h
          obtain rfl := Option.some_inj.mp h
          refine ⟨rfl, rfl, by simp, ?_⟩
          intro e he
          injection he with he
          subst he
          simp
      | deadlineHit =>
          rw [runPhase2_deadline cmd t d col env s h2] at h
          cases hst : stopIapTunnel env.stopEnv s with
          | mk o s1 =>
              have hsh := stopIapTunnel_shape env.stopEnv s
              rw [hst] at h hsh
              cases o with
              | ok u =>
                  obtain rfl := Option.some_inj.mp h
                  refine ⟨rfl, hsh.1, by simp, ?_⟩
                  intro e he
                  injection he with he
                  subst he
                  simp
              | error e0 =>
                  obtain rfl := Option.some_inj.mp h
                  refine ⟨rfl, hsh.1, by simp, ?_⟩
                  intro e he
                  injection he with he
                  subst he
                  rw [hsh.2 e0 rfl]
                  simp

/-- Structural facts about every determined `afterPhase1` outcome. -/
theorem afterPhase1_shape (cmd : List String) (t d : Nat) (env : StartEnv)
    (s : ConnState) (r : StartRes) (h : afterPhase1 cmd t d env s = some r) :
    r.spawnedCmd = some cmd
    ∧ r.st.extras_cert_validation = s.extras_cert_validation
    ∧ (∀ q, r.out = .ok q → r.st.iap_local_port = q ∧ r.st.iap_tunnel_proc = s.iap_tunnel_proc)
    ∧ (∀ e, r.out = .error e → e ≠ .wrappedError) := by
  cases h1 : phase1 d env.remainingStderr env.p1 [] with
  | none => rw [afterPhase1_undet cmd t d env s h1] at h; cases h
  | some out =>
      cases out with
      | died rc col =>
          rw [afterPhase1_died cmd t d env s rc col h1] at h
          obtain rfl := Option.some_inj.mp h
          refine ⟨rfl, rfl, by simp, ?_⟩
          intro e he
          injection he with he
          subst he
          simp
      | found n col =>
          have hsub := runPhase2_shape cmd t d col env { s with iap_local_port := some n } r
            (by rw [← afterPhase1_found cmd t d env s n col h1]; exact h)
          exact ⟨hsub.1, hsub.2.1, hsub.2.2.1, hsub.2.2.2⟩
      | deadlineHit col =>
          cases hp : s.iap_local_port with
          | some p =>
              have hsub := runPhase2_shape cmd t d col env s r
                (by rw [← afterPhase1_deadline_stale cmd t d env s col p h1 hp]; exact h)
              exact hsub
          | none =>
              rw [afterPhase1_deadline_noPort cmd t d env s col h1 hp] at h
              cases hst : stopIapTunnel env.stopEnv s with
              | mk o s1 =>
                  have hsh := stopIapTunnel_shape env.stopEnv s
                  rw [hst] at h hsh
                  cases o with
                  | ok u =>
                      obtain rfl := Option.some_inj.mp h
                      refine ⟨rfl, hsh.1, by simp, ?_⟩
                      intro e he
                      injection he with he
                      subst he
                      simp
                  | error e0 =>
                      obtain rfl := Option.some_inj.mp h
                      refine ⟨rfl, hsh.1, by simp, ?_⟩
                      intro e he
                      injection he with he
                      subst he
                      rw [hsh.2 e0 rfl]
                      simp

/-- Structural facts about every determined `_start_iap_tunnel` outcome:
the final state's extras entry is untouched; a returned port is exactly the
stored `_iap_local_port` of a state still holding a process handle; no
`wrappedError` escapes; a subprocess is spawned only when the fast-path
liveness check failed; and a successful non-fast-path call spawned. -/
theorem startIapTunnel_shape (env : StartEnv) (s : ConnState) (r : StartRes)
    (h : startIapTunnel env s = some r) :
    r.st.extras_cert_validation = s.extras_cert_validation
    ∧ (∀ q, r.out = .ok q → r.st.iap_local_port = q ∧ r.st.iap_tunnel_proc.isSome = true)
    ∧ (∀ e, r.out = .error e → e ≠ .wrappedError)
    ∧ (r.spawnedCmd.isSome = true →
        ¬(s.iap_tunnel_proc.isSome = true ∧ env.entryPoll = none))
    ∧ (¬(s.iap_tunnel_proc.isSome = true ∧ env.entryPoll = none) →
        ∀ q, r.out = .ok q → r.spawnedCmd.isSome = true) := by
  by_cases hfast : s.iap_tunnel_proc.isSome = true ∧ env.entryPoll = none
  · rw [startIapTunnel_fast env s hfast.1 hfast.2] at h
    obtain rfl := Option.some_inj.mp h
    refine ⟨rfl, ?_, by simp, by simp, fun hn => absurd hfast hn⟩
    intro q hq
    injection hq with hq
    exact ⟨hq, hfast.1⟩
  · by_cases hproj : pyStrFalsy s.opts.gcp_project = true
    · rw [startIapTunnel_no_project env s hfast hproj] at h
      obtain rfl := Option.some_inj.mp h
      refine ⟨rfl, by simp, ?_, by simp, by simp⟩
      intro e he
      injection he with he
      subst he
      simp
    · by_cases hzone : pyStrFalsy s.opts.gcp_zone = true
      · rw [startIapTunnel_no_zone env s hfast (by simpa using hproj) hzone] at h
        obtain rfl := Option.some_inj.mp h
        refine ⟨rfl, by simp, ?_, by simp, by simp⟩
        intro e he
        injection he with he
        subst he
        simp
      · rw [startIapTunnel_spawn env s hfast (by simpa using hproj) (by simpa using hzone)] at h
        have hsub := afterPhase1_shape _ _ _ env _ r h
        refine ⟨hsub.2.1, ?_, hsub.2.2.2, fun _ => hfast, fun _ q hq => by rw [hsub.1]; rfl⟩
        intro q hq
        obtain ⟨hport, hproc⟩ := hsub.2.2.1 q hq
        exact ⟨hport, by rw [hproc]; rfl⟩

/-- A port returned by a `_start_iap_tunnel` call that spawned a subprocess
was parsed from that subprocess's own stderr: some observed phase-1 line
matched the port pattern with exactly that number. -/
theorem startIapTunnel_port_from_own_stderr (env : StartEnv) (s : ConnState)
    (r : StartRes) (q : Option Nat)
    (h : startIapTunnel env s = some r)
    (hsp : r.spawnedCmd.isSome = true)
    (hok : r.out = .ok q)
    (hmono : ∀ e1 ∈ env.p1, ∀ e2 ∈ env.p2, e1.now ≤ e2.now) :
    ∃ n, q = some n ∧ ∃ e ∈ env.p1, e.ready = true ∧ searchPort e.line = some n := by
  by_cases hfast : s.iap_tunnel_proc.isSome = true ∧ env.entryPoll = none
  · rw [startIapTunnel_fast env s hfast.1 hfast.2] at h
    obtain rfl := Option.some_inj.mp h
    simp at hsp
  · by_cases hproj : pyStrFalsy s.opts.gcp_project = true
    · rw [startIapTunnel_no_project env s hfast hproj] at h
      obtain rfl := Option.some_inj.mp h
      cases hok
    · by_cases hzone : pyStrFalsy s.opts.gcp_zone = true
      · rw [startIapTunnel_no_zone env s hfast (by simpa using hproj) hzone] at h
        obtain rfl := Option.some_inj.mp h
        cases hok
      · rw [startIapTunnel_spawn env s hfast (by simpa using hproj) (by simpa using hzone)] at h
        set cmd := buildCmd (getIapInstanceName s.opts) (pyOrNat s.opts.port 5986)
          (s.opts.gcp_zone.getD "") (s.opts.gcp_project.getD "")
          s.opts.gcp_iap_service_account with hcmd
        set t := pyOrNat s.opts.iap_tunnel_timeout 30 with ht
        set d := env.startTime + t with hdd
        set s1 := { s with iap_tunnel_proc := some env.newPid } with hs1
        cases h1 : phase1 d env.remainingStderr env.p1 [] with
        | none => rw [afterPhase1_undet cmd t d env s1 h1] at h; cases h
        | some out =>
            cases out with
            | died rc col =>
                rw [afterPhase1_died cmd t d env s1 rc col h1] at h
                obtain rfl := Option.some_inj.mp h
                cases hok
            | found n col =>
                rw [afterPhase1_found cmd t d env s1 n col h1] at h
                obtain ⟨e, he, hr, hline⟩ := phase1_found_mem d env.remainingStderr env.p1 [] col n h1
                cases h2 : phase2 d env.p2 with
                | none => rw [runPhase2_undet cmd t d col env _ h2] at h; cases h
                | some out2 =>
                    cases out2 with
                    | ready =>
                        rw [runPhase2_ready cmd t d col env _ h2] at h
                        obtain rfl := Option.some_inj.mp h
                        injection hok with hok
                        exact ⟨n, by rw [← hok], e, he, hr, hline⟩
                    | died rc =>
                        rw [runPhase2_died cmd t d col env _ rc h2] at h
                        obtain rfl := Option.some_inj.mp h
                        cases hok
                    | deadlineHit =>
                        rw [runPhase2_deadline cmd t d col env _ h2] at h
                        cases hst : stopIapTunnel env.stopEnv _ with
                        | mk o s2 =>
                            rw [hst] at h
                            cases o with
                            | ok u =>
                                obtain rfl := Option.some_inj.mp h
                                cases hok
                            | error e0 =>
                                obtain rfl := Option.some_inj.mp h
                                cases hok
            | deadlineHit col =>
                obtain ⟨e1, he1, hlate⟩ :=
                  phase1_deadlineHit_mem d env.remainingStderr env.p1 [] col h1
                have hall : ∀ e2 ∈ env.p2, ¬ e2.now < d := by
                  intro e2 he2 hlt
                  exact hlate (Nat.lt_of_le_of_lt (hmono e1 he1 e2 he2) hlt)
                have hp2 := phase2_all_late d env.p2 hall
                cases hp : s1.iap_local_port with
                | none =>
                    rw [afterPhase1_deadline_noPort cmd t d env s1 col h1 hp] at h
                    cases hst : stopIapTunnel env.stopEnv s1 with
                    | mk o s2 =>
                        rw [hst] at h
                        cases o with
                        | ok u =>
                            obtain rfl := Option.some_inj.mp h
                            cases hok
                        | error e0 =>
                            obtain rfl := Option.some_inj.mp h
                            cases hok
                | some p =>
                    rw [afterPhase1_deadline_stale cmd t d env s1 col p h1 hp] at h
                    rcases hp2 with hp2 | hp2
                    · rw [runPhase2_undet cmd t d col env s1 hp2] at h; cases h
                    · rw [runPhase2_deadline cmd t d col env s1 hp2] at h
                      cases hst : stopIapTunnel env.stopEnv s1 with
                      | mk o s2 =>
                          rw [hst] at h
                          cases o with
                          | ok u =>
                              obtain rfl := Option.some_inj.mp h
                              cases hok
                          | error e0 =>
                              obtain rfl := Option.some_inj.mp h
                              cases hok


theorem connect_already (env : ConnectEnv) (s : ConnState) (h : s.connected = true) :
    connect env s = some (.ok (), s) := by
  unfold connect; rw [if_pos h]

theorem connect_start_err (env : ConnectEnv) (s : ConnState) (r : StartRes) (e : PyErr)
    (hnc : s.connected = false)
    (hst : startIapTunnel env.startEnv (noProxySetState s) = some r)
    (hro : r.out = .error e) :
    connect env s = some (.error e, r.st) := by
  simp [connect, hnc, hst, hro]

theorem connect_super_raises (env : ConnectEnv) (s : ConnState) (r : StartRes)
    (p : Option Nat) (hnc : s.connected = false)
    (hst : startIapTunnel env.startEnv (noProxySetState s) = some r)
    (hro : r.out = .ok p) (hraise : env.superConnectRaises = true) :
    connect env s = some (.error .wrappedError, certSetStateOf r p) := by
  simp [connect, hnc, hst, hro, hraise, certSetStateOf]

theorem connect_super_ok (env : ConnectEnv) (s : ConnState) (r : StartRes)
    (p : Option Nat) (hnc : s.connected = false)
    (hst : startIapTunnel env.startEnv (noProxySetState s) = some r)
    (hro : r.out = .ok p) (hraise : env.superConnectRaises = false) :
    connect env s = some (.ok (), connectedStateOf r p) := by
  simp [connect, hnc, hst, hro, hraise, connectedStateOf, certSetStateOf]

theorem fsRead_cons (a : String) (b : FileData) (t : FS) (p : String) :
    fsRead ((a, b) :: t) p = if a = p then some b else fsRead t p := rfl

theorem fsRead_write_self (fs : FS) (q : String) (d : FileData) :
    fsRead (fsWrite fs q d) q = some d := by
  unfold fsWrite
  rw [fsRead_cons, if_pos rfl]

theorem fsRead_write_ne (fs : FS) (q p : String) (d : FileData) (h : q ≠ p) :
    fsRead (fsWrite fs q d) p = fsRead fs p := by
  unfold fsWrite
  rw [fsRead_cons, if_neg h]

theorem fsRead_erase_self (fs : FS) (q : String) : fsRead (fsErase fs q) q = none := by
  induction fs with
  | nil => rfl
  | cons e t ih =>
      obtain ⟨a, b⟩ := e
      by_cases he : a = q
      · simpa [fsErase, List.filter_cons, he] using ih
      · simp only [fsErase, List.filter_cons] at ih ⊢
        simp only [show (a != q) = true by simp [he], if_pos]
        rw [fsRead_cons, if_neg he]
        exact ih

theorem fsRead_erase_ne (fs : FS) (q p : String) (h : ¬ p = q) :
    fsRead (fsErase fs q) p = fsRead fs p := by
  induction fs with
  | nil => rfl
  | cons e t ih =>
      obtain ⟨a, b⟩ := e
      by_cases he : a = q
      · rw [fsRead_cons, if_neg (by rw [he]; exact fun hq => h hq.symm)]
        simpa [fsErase, List.filter_cons, he] using ih
      · simp only [fsErase, List.filter_cons] at ih ⊢
        simp only [show (a != q) = true by simp [he], if_pos]
        rw [fsRead_cons, fsRead_cons]
        by_cases hap : a = p
        · rw [if_pos hap, if_pos hap]
        · rw [if_neg hap, if_neg hap]
          exact ih


/-! ## Claims -/

/-- Claim C6: for every diagnostic output stream fed to the port-discovery
loop, if the first line matching either accepted pattern (embedded in
`searchPort`) carries number `n` — `Listening on port [n]` or
`Picking local unused port [n]` — then the loop returns `n`, regardless of
any preceding non-matching lines and of whatever events follow; the first
matching line wins. -/
theorem c6_first_matching_line_wins (d : Nat) (rem : String) (pre : List String)
    (x : String) (es : List P1Event) (n : Nat) (hd : 0 < d)
    (hpre : ∀ l ∈ pre, searchPort l = none ∧ l ≠ "")
    (hx : searchPort x = some n) :
    phase1 d rem (mkP1Events (pre ++ [x]) ++ es) [] =
      some (.found n (pre ++ [x])) := by
  have hne : ¬ x = "" := by
    intro hl
    have h0 : searchPort "" = none := rfl
    rw [hl, h0] at hx
    exact Option.noConfusion hx
  have hsplit : mkP1Events (pre ++ [x]) = mkP1Events pre ++ mkP1Events [x] := by
    simp [mkP1Events]
  rw [hsplit, List.append_assoc, phase1_skip_nonmatching d rem pre _ [] hd hpre]
  show phase1 d rem (⟨0, none, true, x⟩ :: es) ([] ++ pre) = _
  rw [phase1_cons]
  simp only [if_pos hd]
  rw [if_neg hne, hx]
  simp

/-- Witness for C6: two warning lines, then `Listening on port [54321]`. -/
theorem c6_witness :
    (0 : Nat) < 30
    ∧ (∀ l ∈ ["W: a", "W: b"], searchPort l = none ∧ l ≠ "")
    ∧ searchPort "Listening on port [54321]" = some 54321
    ∧ phase1 30 "" (mkP1Events (["W: a", "W: b"] ++ ["Listening on port [54321]"]) ++ []) []
        = some (.found 54321 (["W: a", "W: b"] ++ ["Listening on port [54321]"])) :=
  ⟨by decide, by decide, by decide,
    c6_first_matching_line_wins 30 "" ["W: a", "W: b"] "Listening on port [54321]" [] 54321
      (by decide) (by decide) (by decide)⟩

/-- Claim C8: if project or zone is absent (or empty), `_start_iap_tunnel`
from a state holding no tunnel handle raises a configuration error
(`AnsibleError`), leaves the state untouched, and spawns no subprocess
(`spawnedCmd = none`). -/
theorem c8_config_error_before_spawn (env : StartEnv) (s : ConnState)
    (hfresh : s.iap_tunnel_proc = none)
    (hmiss : pyStrFalsy s.opts.gcp_project = true ∨ pyStrFalsy s.opts.gcp_zone = true) :
    ∃ msg, startIapTunnel env s = some ⟨.error (.ansibleError msg), s, none⟩ := by
  have hns : ¬(s.iap_tunnel_proc.isSome = true ∧ env.entryPoll = none) := by
    simp [hfresh]
  rcases hmiss with hm | hm
  · exact ⟨_, startIapTunnel_no_project env s hns hm⟩
  · by_cases hp : pyStrFalsy s.opts.gcp_project = true
    · exact ⟨_, startIapTunnel_no_project env s hns hp⟩
    · exact ⟨_, startIapTunnel_no_zone env s hns (by simpa using hp) hm⟩

/-- Witness for C8: no project configured. -/
theorem c8_witness :
    stNoProj.iap_tunnel_proc = none
    ∧ pyStrFalsy stNoProj.opts.gcp_project = true
    ∧ ∃ msg, startIapTunnel envHappy stNoProj = some ⟨.error (.ansibleError msg), stNoProj, none⟩ :=
  ⟨rfl, by decide,
    c8_config_error_before_spawn envHappy stNoProj rfl (Or.inl (by decide))⟩

/-- Claim C2: a call with a live tunnel (non-blocking poll reports the
process alive) returns the stored port at once and spawns nothing; hence two
successive calls without an intervening failure or reset return the same port
and spawn exactly one subprocess (the first call spawns, the second does
not and leaves the state untouched). -/
theorem c2_single_live_tunnel (env1 env2 envL : StartEnv) (s sL : ConnState)
    (r1 : StartRes) (p q pidL : Nat)
    (hfresh : s.iap_tunnel_proc = none)
    (h1 : startIapTunnel env1 s = some r1)
    (hok : r1.out = .ok (some p))
    (halive2 : env2.entryPoll = none)
    (hprocL : sL.iap_tunnel_proc = some pidL)
    (haliveL : envL.entryPoll = none)
    (hportL : sL.iap_local_port = some q) :
    r1.spawnedCmd.isSome = true
    ∧ startIapTunnel env2 r1.st = some ⟨.ok (some p), r1.st, none⟩
    ∧ startIapTunnel envL sL = some ⟨.ok (some q), sL, none⟩ := by
  have hns : ¬(s.iap_tunnel_proc.isSome = true ∧ env1.entryPoll = none) := by
    simp [hfresh]
  have hshape := startIapTunnel_shape env1 s r1 h1
  refine ⟨hshape.2.2.2.2 hns (some p) hok, ?_, ?_⟩
  · obtain ⟨hport1, hproc1⟩ := hshape.2.1 (some p) hok
    have := startIapTunnel_fast env2 r1.st hproc1 halive2
    rw [hport1] at this
    exact this
  · have := startIapTunnel_fast envL sL (by rw [hprocL]; rfl) haliveL
    rw [hportL] at this
    exact this

/-- Witness for C2: a fresh start discovering port 4444, then a second call
with the process still alive; and a fast-path call on a live handle. -/
theorem c2_witness :
    stFresh.iap_tunnel_proc = none
    ∧ startIapTunnel envHappy stFresh = some resHappy
    ∧ resHappy.out = .ok (some 4444)
    ∧ (resHappy.spawnedCmd.isSome = true
       ∧ startIapTunnel envAlive resHappy.st = some ⟨.ok (some 4444), resHappy.st, none⟩
       ∧ startIapTunnel envAlive stLive = some ⟨.ok (some 4444), stLive, none⟩) :=
  ⟨rfl, rfl, rfl,
    c2_single_live_tunnel envHappy envAlive envAlive stFresh stLive resHappy 4444 4444 7
      rfl rfl rfl rfl rfl rfl rfl⟩


/-- Claim C7: if the subprocess exits before any line matching a port pattern
has been read, port discovery fails immediately — any later trace events and
any amount of remaining deadline are irrelevant — with a connection failure
whose message contains the subprocess exit code and all diagnostic output
collected so far (the lines read plus the final `stderr.read()`). -/
theorem c7_exit_fails_immediately (env : StartEnv) (s : ConnState)
    (pre : List String) (rc : Int) (tk : Nat) (junk : List P1Event)
    (hfresh : s.iap_tunnel_proc = none)
    (hproj : pyStrFalsy s.opts.gcp_project = false)
    (hzone : pyStrFalsy s.opts.gcp_zone = false)
    (hpre : ∀ l ∈ pre, searchPort l = none ∧ l ≠ "")
    (hp1 : env.p1 = mkP1Events pre ++ ⟨tk, some rc, false, ""⟩ :: junk)
    (htk : tk < env.startTime + pyOrNat s.opts.iap_tunnel_timeout 30) :
    ∃ cmd,
      startIapTunnel env s =
        some ⟨.error (.ansibleConnectionFailure
                (exitedMsg rc (pre ++ [env.remainingStderr]))),
              { s with iap_tunnel_proc := some env.newPid }, some cmd⟩
      ∧ strContains (exitedMsg rc (pre ++ [env.remainingStderr])) (toString rc)
      ∧ strContains (exitedMsg rc (pre ++ [env.remainingStderr]))
          (String.join (pre ++ [env.remainingStderr])) := by
  have hns : ¬(s.iap_tunnel_proc.isSome = true ∧ env.entryPoll = none) := by
    simp [hfresh]
  have hd : 0 < env.startTime + pyOrNat s.opts.iap_tunnel_timeout 30 :=
    Nat.lt_of_le_of_lt (Nat.zero_le tk) htk
  have hph1 : phase1 (env.startTime + pyOrNat s.opts.iap_tunnel_timeout 30)
      env.remainingStderr env.p1 [] =
      some (.died rc (pre ++ [env.remainingStderr])) := by
    rw [hp1, phase1_skip_nonmatching _ _ pre _ [] hd hpre, phase1_cons]
    simp only [if_pos htk]
    simp
  refine ⟨buildCmd (getIapInstanceName s.opts) (pyOrNat s.opts.port 5986)
    (s.opts.gcp_zone.getD "") (s.opts.gcp_project.getD "")
    s.opts.gcp_iap_service_account, ?_, ?_, ?_⟩
  · rw [startIapTunnel_spawn env s hns hproj hzone,
      afterPhase1_died _ _ _ env _ rc (pre ++ [env.remainingStderr]) hph1]
  · exact ⟨"IAP tunnel process exited unexpectedly (rc=",
      "): " ++ String.join (pre ++ [env.remainingStderr]),
      by rw [← String.append_assoc]; rfl⟩
  · refine ⟨"IAP tunnel process exited unexpectedly (rc=" ++ toString rc ++ "): ",
      "", ?_⟩
    rw [String.append_empty]
    rfl

/-- Witness for C7: one warning line, then exit with code 1 while well inside
the deadline; a junk event follows but is never reached. -/
theorem c7_witness :
    stFresh.iap_tunnel_proc = none
    ∧ envLaunchFailW.p1 = mkP1Events ["w1"] ++ ⟨0, some 1, false, ""⟩ :: []
    ∧ (0 : Nat) < envLaunchFailW.startTime + pyOrNat stFresh.opts.iap_tunnel_timeout 30
    ∧ ∃ cmd,
        startIapTunnel envLaunchFailW stFresh =
          some ⟨.error (.ansibleConnectionFailure
                  (exitedMsg 1 (["w1"] ++ [envLaunchFailW.remainingStderr]))),
                { stFresh with iap_tunnel_proc := some envLaunchFailW.newPid }, some cmd⟩
        ∧ strContains (exitedMsg 1 (["w1"] ++ [envLaunchFailW.remainingStderr])) (toString (1 : Int))
        ∧ strContains (exitedMsg 1 (["w1"] ++ [envLaunchFailW.remainingStderr]))
            (String.join (["w1"] ++ [envLaunchFailW.remainingStderr])) :=
  ⟨rfl, rfl, by decide,
    c7_exit_fails_immediately envLaunchFailW stFresh ["w1"] 1 0 []
      rfl (by decide) (by decide) (by decide) rfl (by decide)⟩


/-- Counterexample to C1 as stated: when the subprocess dies during readiness
probing, `_start_iap_tunnel` raises the connection failure *without* calling
`_stop_iap_tunnel` (lines 288-292): the dead process handle and the
discovered port both remain in the adapter state, so the tunnel state is not
cleared before the error propagates. -/
theorem c1_counterexample :
    startIapTunnel envMidDeath stFresh =
      some ⟨.error (.ansibleConnectionFailure (diedMsg 1)), stLive, some cmdA⟩
    ∧ stLive.iap_tunnel_proc ≠ none ∧ stLive.iap_local_port ≠ none :=
  ⟨rfl, by decide, by decide⟩

/-- Claim C1, amended: on the two deadline-elapse failures (port-discovery
timeout and readiness timeout) `_start_iap_tunnel` tears the spawned process
down and clears the tunnel state (handle and port both absent) before the
connection-failure error propagates; but when the subprocess itself exits
(before reporting a port, or during readiness probing) the error propagates
immediately without teardown, leaving the dead process handle — and, in the
mid-probe case, the stale port — in the adapter state.  Scenario A is the
discovery timeout, scenario B the readiness timeout, scenario C a subprocess
exit during discovery. -/
theorem c1_amended_teardown (s : ConnState) (envA envB envC : StartEnv)
    (pre preC : List String) (eEnd : P1Event) (e2 : P2Event) (lineB : String)
    (nB : Nat) (rcC : Int) (tkC : Nat) (junkC : List P1Event)
    (hfresh : s.iap_tunnel_proc = none) (hport0 : s.iap_local_port = none)
    (hproj : pyStrFalsy s.opts.gcp_project = false)
    (hzone : pyStrFalsy s.opts.gcp_zone = false)
    (hA1 : envA.p1 = mkP1Events pre ++ [eEnd])
    (hApre : ∀ l ∈ pre, searchPort l = none ∧ l ≠ "")
    (hAnd : ¬ eEnd.now < envA.startTime + pyOrNat s.opts.iap_tunnel_timeout 30)
    (hAg : envA.stopEnv.graceExit = true)
    (hB1 : envB.p1 = [⟨0, none, true, lineB⟩])
    (hBline : searchPort lineB = some nB)
    (hB2 : envB.p2 = [e2])
    (hBnd : ¬ e2.now < envB.startTime + pyOrNat s.opts.iap_tunnel_timeout 30)
    (hBg : envB.stopEnv.graceExit = true)
    (hC1 : envC.p1 = mkP1Events preC ++ ⟨tkC, some rcC, false, ""⟩ :: junkC)
    (hCpre : ∀ l ∈ preC, searchPort l = none ∧ l ≠ "")
    (hCtk : tkC < envC.startTime + pyOrNat s.opts.iap_tunnel_timeout 30) :
    (∃ m cmd s1,
        startIapTunnel envA s = some ⟨.error (.ansibleConnectionFailure m), s1, some cmd⟩
        ∧ s1.iap_tunnel_proc = none ∧ s1.iap_local_port = none)
    ∧ (∃ m cmd s1,
        startIapTunnel envB s = some ⟨.error (.ansibleConnectionFailure m), s1, some cmd⟩
        ∧ s1.iap_tunnel_proc = none ∧ s1.iap_local_port = none)
    ∧ (∃ m cmd s1,
        startIapTunnel envC s = some ⟨.error (.ansibleConnectionFailure m), s1, some cmd⟩
        ∧ s1.iap_tunnel_proc = some envC.newPid
        ∧ s1.iap_local_port = s.iap_local_port) := by
  refine ⟨?_, ?_, ?_⟩
  · -- scenario A: port-discovery timeout
    have hns : ¬(s.iap_tunnel_proc.isSome = true ∧ envA.entryPoll = none) := by
      simp [hfresh]
    have hd : 0 < envA.startTime + pyOrNat s.opts.iap_tunnel_timeout 30 :=
      Nat.lt_of_lt_of_le (pyOrNat_pos _ 30 (by norm_num)) (Nat.le_add_left _ _)
    have hph1 : phase1 (envA.startTime + pyOrNat s.opts.iap_tunnel_timeout 30)
        envA.remainingStderr envA.p1 [] = some (.deadlineHit pre) := by
      rw [hA1, phase1_skip_nonmatching _ _ pre _ [] hd hApre, phase1_cons, if_neg hAnd]
      simp
    have hstop := stopIapTunnel_clears envA.stopEnv
      { s with iap_tunnel_proc := some envA.newPid } envA.newPid rfl (Or.inl hAg)
    refine ⟨timeoutMsgPort (pyOrNat s.opts.iap_tunnel_timeout 30) pre,
      buildCmd (getIapInstanceName s.opts) (pyOrNat s.opts.port 5986)
        (s.opts.gcp_zone.getD "") (s.opts.gcp_project.getD "")
        s.opts.gcp_iap_service_account,
      { s with iap_tunnel_proc := none, iap_local_port := none }, ?_, rfl, rfl⟩
    rw [startIapTunnel_spawn envA s hns hproj hzone,
      afterPhase1_deadline_noPort _ _ _ envA { s with iap_tunnel_proc := some envA.newPid }
        pre hph1
        (show ({ s with iap_tunnel_proc := some envA.newPid } : ConnState).iap_local_port = none
          from hport0),
      hstop]
  · -- scenario B: readiness timeout
    have hns : ¬(s.iap_tunnel_proc.isSome = true ∧ envB.entryPoll = none) := by
      simp [hfresh]
    have hd : 0 < envB.startTime + pyOrNat s.opts.iap_tunnel_timeout 30 :=
      Nat.lt_of_lt_of_le (pyOrNat_pos _ 30 (by norm_num)) (Nat.le_add_left _ _)
    have hne : ¬ lineB = "" := by
      intro hl
      have h0 : searchPort "" = none := rfl
      rw [hl, h0] at hBline
      exact Option.noConfusion hBline
    have hph1 : phase1 (envB.startTime + pyOrNat s.opts.iap_tunnel_timeout 30)
        envB.remainingStderr envB.p1 [] = some (.found nB [lineB]) := by
      rw [hB1, phase1_cons]
      simp only [if_pos hd]
      rw [if_neg hne, hBline]
      simp
    have hph2 : phase2 (envB.startTime + pyOrNat s.opts.iap_tunnel_timeout 30) envB.p2 =
        some .deadlineHit := by
      rw [hB2, phase2_cons, if_neg hBnd]
    have hstop := stopIapTunnel_clears envB.stopEnv
      { s with iap_tunnel_proc := some envB.newPid, iap_local_port := some nB }
      envB.newPid rfl (Or.inl hBg)
    refine ⟨timeoutMsgTunnel (pyOrNat s.opts.iap_tunnel_timeout 30) [lineB],
      buildCmd (getIapInstanceName s.opts) (pyOrNat s.opts.port 5986)
        (s.opts.gcp_zone.getD "") (s.opts.gcp_project.getD "")
        s.opts.gcp_iap_service_account,
      { s with iap_tunnel_proc := none, iap_local_port := none }, ?_, rfl, rfl⟩
    rw [startIapTunnel_spawn envB s hns hproj hzone,
      afterPhase1_found _ _ _ envB _ nB [lineB] hph1,
      runPhase2_deadline _ _ _ [lineB] envB _ hph2]
    rw [show ({ s with iap_tunnel_proc := some envB.newPid, iap_local_port := some nB }
        : ConnState) =
      { { s with iap_tunnel_proc := some envB.newPid } with iap_local_port := some nB }
      from rfl] at hstop
    rw [hstop]
  · -- scenario C: subprocess exit during discovery
    have hns : ¬(s.iap_tunnel_proc.isSome = true ∧ envC.entryPoll = none) := by
      simp [hfresh]
    have hd : 0 < envC.startTime + pyOrNat s.opts.iap_tunnel_timeout 30 :=
      Nat.lt_of_le_of_lt (Nat.zero_le tkC) hCtk
    have hph1 : phase1 (envC.startTime + pyOrNat s.opts.iap_tunnel_timeout 30)
        envC.remainingStderr envC.p1 [] =
        some (.died rcC (preC ++ [envC.remainingStderr])) := by
      rw [hC1, phase1_skip_nonmatching _ _ preC _ [] hd hCpre, phase1_cons]
      simp only [if_pos hCtk]
      simp
    refine ⟨exitedMsg rcC (preC ++ [envC.remainingStderr]),
      buildCmd (getIapInstanceName s.opts) (pyOrNat s.opts.port 5986)
        (s.opts.gcp_zone.getD "") (s.opts.gcp_project.getD "")
        s.opts.gcp_iap_service_account,
      { s with iap_tunnel_proc := some envC.newPid }, ?_, rfl, rfl⟩
    rw [startIapTunnel_spawn envC s hns hproj hzone,
      afterPhase1_died _ _ _ envC _ rcC (preC ++ [envC.remainingStderr]) hph1]

/-- Witness for the amended C1: concrete runs of all three scenarios from a
fresh adapter with valid options. -/
theorem c1_amended_witness :
    stFresh.iap_tunnel_proc = none
    ∧ envDiscTimeoutW.p1 = mkP1Events ["junk"] ++ [⟨30, none, false, ""⟩]
    ∧ ((∃ m cmd s1,
          startIapTunnel envDiscTimeoutW stFresh =
            some ⟨.error (.ansibleConnectionFailure m), s1, some cmd⟩
          ∧ s1.iap_tunnel_proc = none ∧ s1.iap_local_port = none)
       ∧ (∃ m cmd s1,
          startIapTunnel envReadyTimeoutW stFresh =
            some ⟨.error (.ansibleConnectionFailure m), s1, some cmd⟩
          ∧ s1.iap_tunnel_proc = none ∧ s1.iap_local_port = none)
       ∧ (∃ m cmd s1,
          startIapTunnel envLaunchFailW stFresh =
            some ⟨.error (.ansibleConnectionFailure m), s1, some cmd⟩
          ∧ s1.iap_tunnel_proc = some envLaunchFailW.newPid
          ∧ s1.iap_local_port = stFresh.iap_local_port)) :=
  ⟨rfl, rfl,
    c1_amended_teardown stFresh envDiscTimeoutW envReadyTimeoutW envLaunchFailW
      ["junk"] ["w1"] ⟨30, none, false, ""⟩ ⟨30, none, false⟩
      "Listening on port [4444]" 4444 1 0 []
      rfl rfl (by decide) (by decide)
      rfl (by decide) (by decide) rfl
      rfl (by decide) rfl (by decide) rfl
      rfl (by decide) (by decide)⟩


/-- Counterexample to C3 as stated: `close` has no `try`/`finally` (lines
365-367), so when the wrapped connection's close raises, `_stop_iap_tunnel`
is never invoked — the exception propagates with the tunnel handle still in
place. -/
theorem c3_counterexample :
    close closeEnvRaise stLive = (.error .wrappedError, stLive)
    ∧ stLive.iap_tunnel_proc = some 7 :=
  ⟨rfl, rfl⟩

/-- Claim C3, amended: `close()` delegates to the wrapped connection's close
and then tears down the tunnel; teardown runs only when the wrapped close
returns normally — if the wrapped close raises, the exception propagates
without any teardown and the adapter state (tunnel handle included) is left
untouched. -/
theorem c3_amended_close (env envR : CloseEnv) (s sR : ConnState) (pid : Nat)
    (hok : env.superCloseRaises = false)
    (hg : env.stopEnv.graceExit = true)
    (hproc : s.iap_tunnel_proc = some pid)
    (hraise : envR.superCloseRaises = true) :
    close env s =
      (.ok (), { s with connected := false, protocolSet := false, shellIdSet := false
                        iap_tunnel_proc := none, iap_local_port := none })
    ∧ close envR sR = (.error .wrappedError, sR) := by
  constructor
  · unfold close
    rw [if_neg (by simp [hok])]
    rw [stopIapTunnel_clears env.stopEnv
      { s with connected := false, protocolSet := false, shellIdSet := false }
      pid (by exact hproc) (Or.inl hg)]
  · unfold close
    rw [if_pos hraise]

/-- Witness for the amended C3: a live tunnel closed successfully, and a
close in which the wrapped protocol close raises. -/
theorem c3_amended_witness :
    closeEnvOk.superCloseRaises = false
    ∧ stLive.iap_tunnel_proc = some 7
    ∧ (close closeEnvOk stLive =
        (.ok (), { stLive with connected := false, protocolSet := false
                               shellIdSet := false, iap_tunnel_proc := none, iap_local_port := none })
       ∧ close closeEnvRaise stLive = (.error .wrappedError, stLive)) :=
  ⟨rfl, rfl,
    c3_amended_close closeEnvOk closeEnvRaise stLive stLive 7 rfl rfl rfl rfl⟩

/-- Counterexample to C4 as stated: the second `wait(timeout=5)` at line 327
is not wrapped in a `try`, so if the process survives both the grace period
and `SIGKILL`, `_stop_iap_tunnel` raises `TimeoutExpired` and the handle is
*not* cleared. -/
theorem c4_counterexample :
    stopIapTunnel stuckStop stLive = (.error .timeoutExpired, stLive)
    ∧ stLive.iap_tunnel_proc ≠ none :=
  ⟨rfl, by decide⟩

/-- Claim C4, amended: `_stop_iap_tunnel` is a no-op when no handle is
present; when a handle is present and the process exits within either wait
period, the handle and port are cleared unconditionally — signalling failures
(`OSError` from `killpg`, covered by quantifying over both signal-failure
flags) are swallowed — and a second call in any termination environment is a
no-op that does not raise and leaves the state cleared; only if the process
survives both waits does the final wait's `TimeoutExpired` propagate, with
the handle left in place. -/
theorem c4_amended_terminate (env env2 : StopEnv) (s1 s2 : ConnState) (pid : Nat)
    (hnone : s1.iap_tunnel_proc = none)
    (hexit : env.graceExit = true ∨ env.killExit = true)
    (hproc : s2.iap_tunnel_proc = some pid) :
    stopIapTunnel env s1 = (.ok (), s1)
    ∧ stopIapTunnel env s2 =
        (.ok (), { s2 with iap_tunnel_proc := none, iap_local_port := none })
    ∧ stopIapTunnel env2 { s2 with iap_tunnel_proc := none, iap_local_port := none } =
        (.ok (), { s2 with iap_tunnel_proc := none, iap_local_port := none }) := by
  refine ⟨stopIapTunnel_noProc env s1 hnone, ?_, ?_⟩
  · exact stopIapTunnel_clears env s2 pid hproc hexit
  · exact stopIapTunnel_noProc env2 _ rfl

/-- Witness for the amended C4: terminate a live tunnel with signalling
reported as failing (both `killpg` calls raise, grace-period exit), then
terminate again. -/
theorem c4_amended_witness :
    stFresh.iap_tunnel_proc = none
    ∧ stLive.iap_tunnel_proc = some 7
    ∧ (stopIapTunnel ⟨true, true, true, false⟩ stFresh = (.ok (), stFresh)
       ∧ stopIapTunnel ⟨true, true, true, false⟩ stLive =
           (.ok (), { stLive with iap_tunnel_proc := none, iap_local_port := none })
       ∧ stopIapTunnel stuckStop { stLive with iap_tunnel_proc := none, iap_local_port := none } =
           (.ok (), { stLive with iap_tunnel_proc := none, iap_local_port := none })) :=
  ⟨rfl, rfl,
    c4_amended_terminate ⟨true, true, true, false⟩ stuckStop stFresh stLive 7
      rfl (Or.inl rfl) rfl⟩


/-- Counterexample to C9 as stated: `_connect` uses `extras.setdefault`
(line 351), which does not override an explicitly configured value.  With
`ansible_winrm_server_cert_validation` preset to `validate`, a fully
successful connect completes with validation still enabled: certificate
validation is not forced off before delegating to the wrapped connect. -/
theorem c9_counterexample :
    connect cenvHappy stCfgValidate = some (.ok (), stC9Final)
    ∧ stC9Final.extras_cert_validation = some "validate"
    ∧ stC9Final.extras_cert_validation ≠ some "ignore" :=
  ⟨rfl, rfl, by decide⟩

/-- Claim C9, amended: on every connect that reaches the wrapped connect
(the tunnel start returned a port), the adapter applies
`extras.setdefault('ansible_winrm_server_cert_validation', 'ignore')` before
delegating: validation is set to `ignore` only when the option was absent,
and a pre-existing value is preserved; this holds whether the wrapped
connect then succeeds or raises. -/
theorem c9_amended_cert_validation (env : ConnectEnv) (s : ConnState)
    (res : Except PyErr Unit × ConnState)
    (hnc : s.connected = false)
    (h : connect env s = some res)
    (ho : res.1 = .ok () ∨ res.1 = .error .wrappedError) :
    res.2.extras_cert_validation = some (s.extras_cert_validation.getD "ignore") := by
  cases hst : startIapTunnel env.startEnv (noProxySetState s) with
  | none =>
      rw [show connect env s = none by simp [connect, hnc, hst]] at h
      cases h
  | some r =>
      have hex : r.st.extras_cert_validation = s.extras_cert_validation :=
        (startIapTunnel_shape _ _ _ hst).1
      cases hro : r.out with
      | error e =>
          have hne := (startIapTunnel_shape _ _ _ hst).2.2.1 e hro
          rw [connect_start_err env s r e hnc hst hro] at h
          obtain rfl := Option.some_inj.mp h
          rcases ho with ho | ho
          · exact absurd ho (by simp)
          · have : e = .wrappedError := by
              have := ho
              simp only [] at this
              injection this
            exact absurd this hne
      | ok pt =>
          by_cases hsr : env.superConnectRaises = true
          · rw [connect_super_raises env s r pt hnc hst hro hsr] at h
            obtain rfl := Option.some_inj.mp h
            show some (r.st.extras_cert_validation.getD "ignore") = _
            rw [hex]
          · rw [connect_super_ok env s r pt hnc hst hro (by simpa using hsr)] at h
            obtain rfl := Option.some_inj.mp h
            show some (r.st.extras_cert_validation.getD "ignore") = _
            rw [hex]

/-- Witness for the amended C9: connect on a fresh adapter with no preset
value yields `ignore`. -/
theorem c9_amended_witness :
    stFresh.connected = false
    ∧ connect cenvHappy stFresh =
        some (.ok (), { stC9Final with extras_cert_validation := some "ignore" })
    ∧ ({ stC9Final with extras_cert_validation := some "ignore" }
        : ConnState).extras_cert_validation
        = some (stFresh.extras_cert_validation.getD "ignore") :=
  ⟨rfl, rfl,
    c9_amended_cert_validation cenvHappy stFresh
      (.ok (), { stC9Final with extras_cert_validation := some "ignore" })
      rfl rfl (Or.inl rfl)⟩

/-- Claim C5: a discovered local port is never carried from one tunnel
subprocess to a later one without re-discovery: (i) after the
`_stop_iap_tunnel` of `reset` completes, the state from which `_connect`
re-establishes has its port cleared, and `reset` is exactly `connect` from
that cleared state; (ii) every `_start_iap_tunnel` call that spawned a
subprocess and returned a port got that port from a line of that same
subprocess's own stderr trace (given that phase-2 clock readings do not
precede phase-1 ones, as real time guarantees). -/
theorem c5_port_never_reused (senv : StopEnv) (cenv : ConnectEnv) (sR : ConnState)
    (env : StartEnv) (s : ConnState) (r : StartRes) (q : Option Nat)
    (hinv : sR.iap_local_port.isSome = true → sR.iap_tunnel_proc.isSome = true)
    (hstop : (stopIapTunnel senv sR).1 = .ok ())
    (h : startIapTunnel env s = some r)
    (hsp : r.spawnedCmd.isSome = true)
    (hok : r.out = .ok q)
    (hmono : ∀ e1 ∈ env.p1, ∀ e2 ∈ env.p2, e1.now ≤ e2.now) :
    ((resetStateAfterStop senv sR).iap_local_port = none
      ∧ reset senv cenv sR = connect cenv (resetStateAfterStop senv sR))
    ∧ ∃ n, q = some n ∧ ∃ e ∈ env.p1, e.ready = true ∧ searchPort e.line = some n := by
  constructor
  · cases hp : sR.iap_tunnel_proc with
    | none =>
        have hs := stopIapTunnel_noProc senv sR hp
        have hpn : sR.iap_local_port = none := by
          cases hq : sR.iap_local_port with
          | none => rfl
          | some v =>
              have hh := hinv (by rw [hq]; rfl)
              rw [hp] at hh
              exact absurd hh (by simp)
        constructor
        · show ((stopIapTunnel senv sR).2).iap_local_port = none
          rw [hs]
          exact hpn
        · unfold reset
          rw [hs]
    | some pid =>
        have hex : senv.graceExit = true ∨ senv.killExit = true := by
          by_cases hg : senv.graceExit = true
          · exact Or.inl hg
          · by_cases hk : senv.killExit = true
            · exact Or.inr hk
            · have hstuck := stopIapTunnel_stuck senv sR pid hp
                (by simpa using hg) (by simpa using hk)
              rw [hstuck] at hstop
              simp at hstop
        have hs := stopIapTunnel_clears senv sR pid hp hex
        constructor
        · show ((stopIapTunnel senv sR).2).iap_local_port = none
          rw [hs]
        · unfold reset
          rw [hs]
  · exact startIapTunnel_port_from_own_stderr env s r q h hsp hok hmono

/-- Witness for C5: a reset of a live tunnel followed by the happy
re-discovery run. -/
theorem c5_witness :
    (stopIapTunnel benignStop stLive).1 = .ok ()
    ∧ startIapTunnel envHappy stFresh = some resHappy
    ∧ (((resetStateAfterStop benignStop stLive).iap_local_port = none
        ∧ reset benignStop cenvHappy stLive =
            connect cenvHappy (resetStateAfterStop benignStop stLive))
       ∧ ∃ n, (some 4444 : Option Nat) = some n
          ∧ ∃ e ∈ envHappy.p1, e.ready = true ∧ searchPort e.line = some n) :=
  ⟨rfl, rfl,
    c5_port_never_reused benignStop cenvHappy stLive envHappy stFresh resHappy
      (some 4444) (by decide) rfl rfl rfl rfl (by decide)⟩


/-- Claim C10: with `vault_encrypt` on, the vault path
`host_vars/<instance>/vault.yml` is only ever written by renaming a temp file
that `ansible-vault` already encrypted: whatever happens, the vault path
never ends up holding plaintext written by this run; on encryption success
the vault path holds the encrypted credentials; on encryption failure the
plaintext temp file is deleted, the module fails, and the vault path is
untouched. -/
theorem c10_no_plaintext_at_vault_path (p : ModuleParams) (env : RunEnv) (fs : FS)
    (js : List (String × String))
    (htmp : tmpPathOf p env ≠ vaultFileOf p)
    (hpre : ∀ c, fsRead fs (vaultFileOf p) ≠ some (.plain c))
    (hv : p.vault_encrypt = true)
    (hpw : pyStrFalsy p.vault_password_file = false)
    (hrc : env.gcloudRc = 0)
    (hjs : env.jsonResult = some js) :
    (∀ c, fsRead (run_module p env fs).2 (vaultFileOf p) ≠ some (.plain c))
    ∧ (env.encryptOk = true →
        (run_module p env fs).1 = .exited (some (vaultFileOf p))
        ∧ fsRead (run_module p env fs).2 (vaultFileOf p) =
            some (.vaulted (vaultYamlContent (jsonGet js "username" p.user)
              (jsonGet js "password" ""))))
    ∧ (env.encryptOk = false →
        (run_module p env fs).1 =
          .failed ("ansible-vault encrypt failed: " ++ env.encryptStderr)
        ∧ fsRead (run_module p env fs).2 (vaultFileOf p) = fsRead fs (vaultFileOf p)
        ∧ fsRead (run_module p env fs).2 (tmpPathOf p env) = none) := by
  by_cases he : env.encryptOk = true
  · have hrm : run_module p env fs =
        (.exited (some (vaultFileOf p)),
          fsWrite
            (fsErase
              (fsWrite
                (fsWrite fs (tmpPathOf p env)
                  (.plain (vaultYamlContent (jsonGet js "username" p.user)
                    (jsonGet js "password" ""))))
                (tmpPathOf p env)
                (.vaulted (vaultYamlContent (jsonGet js "username" p.user)
                  (jsonGet js "password" ""))))
              (tmpPathOf p env))
            (vaultFileOf p)
            (.vaulted (vaultYamlContent (jsonGet js "username" p.user)
              (jsonGet js "password" "")))) := by
      simp only [run_module]
      rw [if_neg (by simp [hpw]), if_neg (by simp [hrc]), hjs]
      simp only [if_pos hv, if_pos he]
      unfold fsRename
      rw [fsRead_write_self]
    rw [hrm]
    refine ⟨?_, fun _ => ⟨rfl, ?_⟩, fun hfe => absurd he (by simp [hfe])⟩
    · intro c hc
      rw [fsRead_write_self] at hc
      exact FileData.noConfusion (Option.some_inj.mp hc)
    · rw [fsRead_write_self]
  · have he' : env.encryptOk = false := by simpa using he
    have hrm : run_module p env fs =
        (.failed ("ansible-vault encrypt failed: " ++ env.encryptStderr),
          fsErase
            (fsWrite fs (tmpPathOf p env)
              (.plain (vaultYamlContent (jsonGet js "username" p.user)
                (jsonGet js "password" ""))))
            (tmpPathOf p env)) := by
      simp only [run_module]
      rw [if_neg (by simp [hpw]), if_neg (by simp [hrc]), hjs]
      simp only [if_pos hv, if_neg (by simp [he'] : ¬ env.encryptOk = true)]
    rw [hrm]
    have hvaultread :
        fsRead (fsErase
          (fsWrite fs (tmpPathOf p env)
            (.plain (vaultYamlContent (jsonGet js "username" p.user)
              (jsonGet js "password" ""))))
          (tmpPathOf p env)) (vaultFileOf p) = fsRead fs (vaultFileOf p) := by
      rw [fsRead_erase_ne _ _ _ (fun hh => htmp hh.symm), fsRead_write_ne _ _ _ _ htmp]
    refine ⟨?_, fun hok => absurd hok (by simp [he']), fun _ => ⟨rfl, hvaultread, ?_⟩⟩
    · intro c hc
      rw [hvaultread] at hc
      exact hpre c hc
    · rw [fsRead_erase_self]

/-- Witness for C10: a successful encrypted write into an empty filesystem. -/
theorem c10_witness :
    tmpPathOf wpP wpEnvOk ≠ vaultFileOf wpP
    ∧ wpP.vault_encrypt = true
    ∧ ((∀ c, fsRead (run_module wpP wpEnvOk []).2 (vaultFileOf wpP) ≠ some (.plain c))
       ∧ (wpEnvOk.encryptOk = true →
            (run_module wpP wpEnvOk []).1 = .exited (some (vaultFileOf wpP))
            ∧ fsRead (run_module wpP wpEnvOk []).2 (vaultFileOf wpP) =
                some (.vaulted (vaultYamlContent
                  (jsonGet [("username", "admin"), ("password", "pw1"),
                    ("ip_address", "10.0.0.2")] "username" wpP.user)
                  (jsonGet [("username", "admin"), ("password", "pw1"),
                    ("ip_address", "10.0.0.2")] "password" ""))))
       ∧ (wpEnvOk.encryptOk = false →
            (run_module wpP wpEnvOk []).1 =
              .failed ("ansible-vault encrypt failed: " ++ wpEnvOk.encryptStderr)
            ∧ fsRead (run_module wpP wpEnvOk []).2 (vaultFileOf wpP) =
                fsRead [] (vaultFileOf wpP)
            ∧ fsRead (run_module wpP wpEnvOk []).2 (tmpPathOf wpP wpEnvOk) = none)) :=
  ⟨by decide, rfl,
    c10_no_plaintext_at_vault_path wpP wpEnvOk []
      [("username", "admin"), ("password", "pw1"), ("ip_address", "10.0.0.2")]
      (by decide) (fun c h => Option.noConfusion h) rfl (by decide) rfl rfl⟩

end WinrmIap
